import Mathlib

/-!
# Verification of the purrfect-health feeding/analytics logic

Shallow embedding of the pet feeding tracker: the domain calculators
(`calculateActualConsumed`, `calculateCalories`), locale-aware numeric
parsing, the record builders of the form submit handlers, the database
request shapes issued by the view controllers, the analytics calorie
aggregation, the dashboard statistics, and the translation lookup.

JavaScript numbers are modelled as rationals (`ℚ`); a computation that
can produce `NaN` (a failed `parseFloat`) is modelled with `Option ℚ`,
`none` standing for `NaN`.  JavaScript `x || y` on a number-or-nullish
value coincides with `Option.getD` here because `0 || y = y` and the
default is itself `0` in every use in this codebase.
-/

namespace PurrfectHealth

/-- JS `x || 0` on an optional number: `undefined`/`null` and `0` both
give `0`, so `Option.getD 0` is an exact model. -/
def jsOrZero (o : Option ℚ) : ℚ := o.getD 0

/-- Species enum from `src/types` (`'dog' | 'cat' | 'bird' | 'rabbit' | 'other'`). -/
inductive Species
  | dog
  | cat
  | bird
  | rabbit
  | other
deriving DecidableEq

/-- Record `Food` from `src/types`: optional brand and optional per-gram macros. -/
structure Food where
  id : String
  user_id : String
  name : String
  brand : Option String
  calories_per_gram : Option ℚ
  protein_per_gram : Option ℚ
  fat_per_gram : Option ℚ
  carbs_per_gram : Option ℚ
  created_at : String
  updated_at : String
deriving DecidableEq

/-- Record `FeedingEntry` from `src/types` (a fetched row; the joined `pet`/`food`
display objects are omitted, no computation reads them). -/
structure FeedingEntry where
  id : String
  user_id : String
  pet_id : String
  food_id : String
  amount_put_out : ℚ
  amount_not_eaten : Option ℚ
  amount_refilled : Option ℚ
  actual_consumed : Option ℚ
  calories_consumed : Option ℚ
  fed_at : String
  notes : Option String
  created_at : String
  updated_at : String
deriving DecidableEq

/-- Record `WeightEntry` from `src/types`. -/
structure WeightEntry where
  id : String
  user_id : String
  pet_id : String
  weight : ℚ
  weighed_at : String
  notes : Option String
  created_at : String
  updated_at : String
deriving DecidableEq

/-- Function `calculateActualConsumed(currentBowlWeight, lastBowlWeight = 0)`:
`Math.max(0, lastBowlWeight - currentBowlWeight)`. -/
def calculateActualConsumed (currentBowlWeight : ℚ) (lastBowlWeight : ℚ := 0) : ℚ :=
  max 0 (lastBowlWeight - currentBowlWeight)

/-- Function `calculateCalories(actualConsumed, food)` of `Feeding.tsx`:
`if (!food.calories_per_gram) return null; return actualConsumed * food.calories_per_gram`.
JS `!x` is true for `undefined`, `null` and `0`, so a defined density of `0`
also takes the `null` branch. -/
def calculateCalories (actualConsumed : ℚ) (food : Food) : Option ℚ :=
  match food.calories_per_gram with
  | none => none
  | some d => if d = 0 then none else some (actualConsumed * d)

/-- Function `calculateActualConsumed(putOut, notEaten = 0, refilled = 0)`:
`putOut + refilled - notEaten` (the refill-tracking variant, no clamping). -/
def calculateActualConsumedDashboard (putOut : ℚ) (notEaten : ℚ := 0) (refilled : ℚ := 0) : ℚ :=
  putOut + refilled - notEaten

/-- Replace the first occurrence of a character, as JS
`String.prototype.replace` with a plain one-character pattern does
(it replaces only the first match). -/
def replaceFirstChar : List Char → Char → Char → List Char
  | [], _, _ => []
  | x :: xs, c, r => if x = c then r :: xs else x :: replaceFirstChar xs c r

/-- JS `value.replace(c, r)` for one-character `c`/`r`: first occurrence only. -/
def jsReplaceFirst (s : String) (c r : Char) : String :=
  ⟨replaceFirstChar s.data c r⟩

/-- Consume a maximal run of decimal digits: returns the accumulated value,
the number of digits consumed, and the remaining characters. -/
def parseDigitsAux : List Char → ℕ → ℕ → ℕ × ℕ × List Char
  | [], acc, n => (acc, n, [])
  | c :: cs, acc, n =>
    if c.isDigit then parseDigitsAux cs (10 * acc + (c.toNat - 48)) (n + 1)
    else (acc, n, c :: cs)

/-- The syntactic part of JS `parseFloat` on the plain decimal literals
this codebase feeds it (optional sign, integer digits, optional `.` and
fraction digits; parsing stops at the first character that cannot extend
the number).  Returns (negative?, integer part, fraction digits value,
fraction digit count); `NaN` — no digit at all — is `none`. -/
def jsParseFloatRaw (s : String) : Option (Bool × ℕ × ℕ × ℕ) :=
  let step2 : Bool → List Char → Option (Bool × ℕ × ℕ × ℕ) := fun neg cs =>
    let r1 := parseDigitsAux cs 0 0
    match r1.2.2 with
    | '.' :: cs2 =>
      let r2 := parseDigitsAux cs2 0 0
      if r1.2.1 = 0 ∧ r2.2.1 = 0 then none
      else some (neg, r1.1, r2.1, r2.2.1)
    | _ => if r1.2.1 = 0 then none else some (neg, r1.1, 0, 0)
  match s.data with
  | '-' :: rest => step2 true rest
  | '+' :: rest => step2 false rest
  | cs => step2 false cs

/-- The numeric value of a parsed decimal literal. -/
def ratOfParts (neg : Bool) (ip fp fc : ℕ) : ℚ :=
  (if neg then -1 else 1) * ((ip : ℚ) + (fp : ℚ) / (10 : ℚ) ^ fc)

/-- JS `parseFloat` (on plain decimal literals), with `NaN` as `none`. -/
def jsParseFloat (s : String) : Option ℚ :=
  (jsParseFloatRaw s).map (fun r => ratOfParts r.1 r.2.1 r.2.2.1 r.2.2.2)

/-- Function `parseNumber(value)` of `Feeding.tsx`: `parseFloat(value.replace(',', '.'))`
— always tolerates a comma, regardless of locale. -/
def parseNumberFeeding (value : String) : Option ℚ :=
  jsParseFloat (jsReplaceFirst value ',' '.')

/-- The two UI languages of `LanguageContext`. -/
inductive Language
  | en
  | de
deriving DecidableEq

/-- Function `parseNumber(value)` of `LanguageContext`: in German mode the comma is
first replaced by a dot, in English mode the text is parsed as-is. -/
def parseNumberCtx (language : Language) (value : String) : Option ℚ :=
  match language with
  | .de => jsParseFloat (jsReplaceFirst value ',' '.')
  | .en => jsParseFloat value

/-- The payload built by `Feeding.tsx` `handleSubmit` (`feedingData`,
lines 122–133) and by `Dashboard.tsx` `handleFeedingSubmit`. -/
structure FeedingData where
  pet_id : String
  food_id : String
  amount_put_out : ℚ
  amount_not_eaten : Option ℚ
  amount_refilled : Option ℚ
  actual_consumed : ℚ
  calories_consumed : Option ℚ
  fed_at : String
  notes : Option String
  user_id : String
deriving DecidableEq

/-- From `Feeding.tsx` `handleSubmit` lines 115–133, the construction of the
saved record.  `currentBowlWeight` is the already-parsed form value
(`parseNumber(formData.current_bowl_weight)`); inputs whose parse yields
`NaN` are outside this model.  `lastBowlWeight` is
`lastFeeding?.amount_put_out || 0`; `caloriesConsumed` is
`selectedFood ? calculateCalories(actualConsumed, selectedFood) : null`
with `selectedFood = foods.find(f => f.id === formData.food_id)`;
`fed_at` is `formData.fed_at || new Date().toISOString()` and `notes`
is `formData.notes || null`. -/
def feedingSubmitRecord (uid petId foodId : String) (currentBowlWeight : ℚ)
    (lastFeeding : Option FeedingEntry) (foods : List Food)
    (fedAtForm notesForm nowIso : String) : FeedingData :=
  let lastBowlWeight := jsOrZero (lastFeeding.map (·.amount_put_out))
  let actualConsumed := calculateActualConsumed currentBowlWeight lastBowlWeight
  let selectedFood := foods.find? (fun f => f.id == foodId)
  let caloriesConsumed := selectedFood.bind (fun f => calculateCalories actualConsumed f)
  { pet_id := petId
    food_id := foodId
    amount_put_out := currentBowlWeight
    amount_not_eaten := none
    amount_refilled := none
    actual_consumed := actualConsumed
    calories_consumed := caloriesConsumed
    fed_at := if fedAtForm = "" then nowIso else fedAtForm
    notes := if notesForm = "" then none else some notesForm
    user_id := uid }

/-- The spec's data-model invariant for a saved feeding record:
`actual_consumed = amount_put_out + amount_refilled - amount_not_eaten`,
absent refill/not-eaten amounts read as `0`. -/
def feedingInvariant (r : FeedingData) : Prop :=
  r.actual_consumed = r.amount_put_out + jsOrZero r.amount_refilled - jsOrZero r.amount_not_eaten

instance (r : FeedingData) : Decidable (feedingInvariant r) := by
  unfold feedingInvariant
  infer_instance

/-- A previous feeding whose bowl held 150 g when it was recorded. -/
def lastFeeding150 : FeedingEntry :=
  { id := "e1"
    user_id := "u1"
    pet_id := "p1"
    food_id := "f1"
    amount_put_out := 150
    amount_not_eaten := none
    amount_refilled := none
    actual_consumed := none
    calories_consumed := none
    fed_at := "2025-01-01T08:00"
    notes := none
    created_at := ""
    updated_at := "" }

/-- A food whose calorie density is recorded as `0` (reachable: the foods
form stores `parseFloat("0") = 0` when the user types `0`). -/
def foodZeroDensity : Food :=
  { id := "f0"
    user_id := "u1"
    name := "water"
    brand := none
    calories_per_gram := some 0
    protein_per_gram := none
    fat_per_gram := none
    carbs_per_gram := none
    created_at := ""
    updated_at := "" }

/-- A food with calorie density 4 cal/g. -/
def foodFourCal : Food :=
  { id := "f4"
    user_id := "u1"
    name := "kibble"
    brand := none
    calories_per_gram := some 4
    protein_per_gram := none
    fat_per_gram := none
    carbs_per_gram := none
    created_at := ""
    updated_at := "" }

/-- C1: the bowl-weight consumption calculator returns
`max 0 (previousPutOut - currentWeight)` for all inputs, the previous
put-out defaults to `0` when absent, the result is never negative, and
with previous put-out 150 and current bowl weight 40 it returns 110. -/
theorem calculateActualConsumed_spec :
    (∀ c p : ℚ, calculateActualConsumed c p = max 0 (p - c)) ∧
    (∀ c : ℚ, calculateActualConsumed c = max 0 (0 - c)) ∧
    (∀ c p : ℚ, 0 ≤ calculateActualConsumed c p) ∧
    calculateActualConsumed 40 150 = 110 := by
  refine ⟨fun c p => rfl, fun c => rfl, fun c p => le_max_left _ _, ?_⟩
  norm_num [calculateActualConsumed]

/-- C2 counterexample: for a food whose calorie density is defined but
equal to `0`, the calculator returns `none` even though the density is
not undefined, so "absent iff the density is undefined" fails. -/
theorem calculateCalories_iff_cex :
    ¬ ((calculateCalories 5 foodZeroDensity = none) ↔
        foodZeroDensity.calories_per_gram = none) := by
  decide

/-- C2 amended: the calorie calculator returns `none` iff the food's
calorie density is undefined or equal to `0` (JS falsiness); whenever the
density `d` is defined and nonzero it returns `consumed * d`, linear in
the consumed amount. -/
theorem calculateCalories_spec (consumed : ℚ) (food : Food) :
    (calculateCalories consumed food = none ↔
      (food.calories_per_gram = none ∨ food.calories_per_gram = some 0)) ∧
    (∀ d : ℚ, food.calories_per_gram = some d → d ≠ 0 →
      calculateCalories consumed food = some (consumed * d)) := by
  constructor
  · unfold calculateCalories
    rcases h : food.calories_per_gram with _ | d
    · simp
    · by_cases hd : d = 0 <;> simp [hd]
  · intro d hd hdne
    simp [calculateCalories, hd, hdne]

/-- C2 witness: 5 g of a 4 cal/g food is 20 calories via `calculateCalories_spec`. -/
theorem calculateCalories_spec_witness :
    calculateCalories 5 foodFourCal = some 20 := by
  have h := (calculateCalories_spec 5 foodFourCal).2 4 rfl (by norm_num)
  rw [h]
  norm_num

/-- C3 counterexample: submitting the feeding form with previous put-out
150 and current bowl weight 40 saves `amount_put_out = 40`,
`actual_consumed = 110`, so `actual_consumed ≠ amount_put_out +
amount_refilled − amount_not_eaten` (`110 ≠ 40 + 0 − 0`). -/
theorem feedingSubmit_invariant_cex :
    (feedingSubmitRecord "u1" "p1" "f1" 40 (some lastFeeding150) []
        "" "" "2025-01-02T08:00").actual_consumed = 110 ∧
    (feedingSubmitRecord "u1" "p1" "f1" 40 (some lastFeeding150) []
        "" "" "2025-01-02T08:00").amount_put_out = 40 ∧
    ¬ feedingInvariant (feedingSubmitRecord "u1" "p1" "f1" 40 (some lastFeeding150) []
        "" "" "2025-01-02T08:00") := by
  refine ⟨?_, rfl, ?_⟩
  · show max 0 (150 - 40) = 110
    norm_num
  · show ¬ (max 0 ((150 : ℚ) - 40) = 40 + jsOrZero none - jsOrZero none)
    norm_num [jsOrZero]

/-- C3 amended: every record saved by the bowl-weight feeding form stores
the current bowl weight in `amount_put_out`, leaves `amount_refilled` and
`amount_not_eaten` absent, and sets `actual_consumed =
max 0 (previous put-out − current weight)`; it therefore satisfies the
data-model invariant `actual_consumed = amount_put_out + amount_refilled
− amount_not_eaten` only when that clamped difference happens to equal
the current bowl weight. -/
theorem feedingSubmitRecord_spec (uid petId foodId : String) (c : ℚ)
    (last : Option FeedingEntry) (foods : List Food)
    (fedAtForm notesForm nowIso : String) :
    (feedingSubmitRecord uid petId foodId c last foods fedAtForm notesForm nowIso).amount_refilled
        = none ∧
    (feedingSubmitRecord uid petId foodId c last foods fedAtForm notesForm nowIso).amount_not_eaten
        = none ∧
    (feedingSubmitRecord uid petId foodId c last foods fedAtForm notesForm nowIso).amount_put_out
        = c ∧
    (feedingSubmitRecord uid petId foodId c last foods fedAtForm notesForm nowIso).actual_consumed
        = max 0 (jsOrZero (last.map (·.amount_put_out)) - c) ∧
    (feedingInvariant (feedingSubmitRecord uid petId foodId c last foods fedAtForm notesForm nowIso)
        ↔ max 0 (jsOrZero (last.map (·.amount_put_out)) - c) = c) := by
  refine ⟨rfl, rfl, rfl, rfl, ?_⟩
  unfold feedingInvariant feedingSubmitRecord calculateActualConsumed
  simp [jsOrZero]

/-- C9: with no previous feeding for the pet/food pair the previous bowl
weight defaults to 0, so for any non-negative current bowl weight the
first saved record has `actual_consumed = 0`. -/
theorem feedingSubmitRecord_first_feeding (uid petId foodId : String) (c : ℚ)
    (hc : 0 ≤ c) (foods : List Food) (fedAtForm notesForm nowIso : String) :
    (feedingSubmitRecord uid petId foodId c none foods fedAtForm notesForm nowIso).actual_consumed
        = 0 := by
  show calculateActualConsumed c (jsOrZero ((none : Option FeedingEntry).map (·.amount_put_out)))
      = 0
  unfold calculateActualConsumed jsOrZero
  simp only [Option.map_none', Option.getD_none]
  rw [max_eq_left]
  linarith

/-- C9 witness: a first feeding with current bowl weight 40 has
`actual_consumed = 0`. -/
theorem feedingSubmitRecord_first_feeding_witness :
    (feedingSubmitRecord "u1" "p1" "f1" 40 none [] "" "" "2025-01-02T08:00").actual_consumed
        = 0 :=
  feedingSubmitRecord_first_feeding "u1" "p1" "f1" 40 (by norm_num) [] "" "" "2025-01-02T08:00"

/-- C5: locale-tolerant decimal parsing.  The feeding page's
`parseNumber` maps both "3,5" and "3.5" to 3.5 unconditionally; the
language context's `parseNumber` maps "3,5" to 3.5 in German mode and
"3.5" to 3.5 in both modes. -/
theorem parseNumber_locale_spec :
    parseNumberFeeding "3,5" = some (7 / 2) ∧
    parseNumberFeeding "3.5" = some (7 / 2) ∧
    parseNumberCtx .de "3,5" = some (7 / 2) ∧
    parseNumberCtx .de "3.5" = some (7 / 2) ∧
    parseNumberCtx .en "3.5" = some (7 / 2) := by
  have hraw : jsParseFloatRaw "3.5" = some (false, 3, 5, 1) := by decide
  have hrep : jsReplaceFirst "3,5" ',' '.' = "3.5" := by decide
  have hrep2 : jsReplaceFirst "3.5" ',' '.' = "3.5" := by decide
  have hval : ratOfParts false 3 5 1 = 7 / 2 := by
    norm_num [ratOfParts]
  refine ⟨?_, ?_, ?_, ?_, ?_⟩ <;>
    simp [parseNumberFeeding, parseNumberCtx, jsParseFloat, hrep, hrep2, hraw, hval]

/-! ## Analytics calorie aggregation (`Analytics.tsx`, lines 106–117) -/

/-- The local calendar date of a timestamp (`new Date(ts)` rendered in the
local time zone). -/
structure LocalDate where
  year : ℕ
  month : ℕ
  day : ℕ
deriving DecidableEq

/-- Label `format(new Date(e.fed_at), 'MMM dd')`: the grouping label of the
aggregation.  The format prints only the month name and the two-digit day,
so the label is exactly the (month, day) pair of the local calendar date. -/
def dayLabel (d : LocalDate) : ℕ × ℕ := (d.month, d.day)

/-- The slice of a feeding row the calorie aggregation reads: its
`fed_at` timestamp (abstracted to its local calendar date) and its
optional `calories_consumed`. -/
structure AnalyticsFeeding where
  fedAtLocal : LocalDate
  calories_consumed : Option ℚ
deriving DecidableEq

/-- The value a JS `Map` (insertion-ordered, unique keys) holds at a key,
as an association list lookup. -/
def mapVal (m : List ((ℕ × ℕ) × ℚ)) (k : ℕ × ℕ) : Option ℚ :=
  (m.find? (fun p => p.1 == k)).map (·.2)

/-- Expression `caloriesByDay.get(day) || 0`. -/
def mapGetOrZero (m : List ((ℕ × ℕ) × ℚ)) (k : ℕ × ℕ) : ℚ :=
  jsOrZero (mapVal m k)

/-- Operation `Map.prototype.set`: replace the value in place if the key exists
(keeping insertion order), otherwise append a new entry. -/
def mapSet (m : List ((ℕ × ℕ) × ℚ)) (k : ℕ × ℕ) (v : ℚ) : List ((ℕ × ℕ) × ℚ) :=
  if m.any (fun p => p.1 == k) then m.map (fun p => if p.1 == k then (k, v) else p)
  else m ++ [(k, v)]

/-- From `Analytics.tsx` lines 107–112: `feedingEntries.forEach` building the
per-day calorie `Map` with
`caloriesByDay.set(day, (caloriesByDay.get(day) || 0) + (feeding.calories_consumed || 0))`. -/
def caloriesByDay (entries : List AnalyticsFeeding) : List ((ℕ × ℕ) × ℚ) :=
  entries.foldl
    (fun m e =>
      mapSet m (dayLabel e.fedAtLocal)
        (mapGetOrZero m (dayLabel e.fedAtLocal) + jsOrZero e.calories_consumed))
    []

/-- Sum of the (or-zero) calories of the entries carrying a given label. -/
def sumCaloriesOn (entries : List AnalyticsFeeding) (k : ℕ × ℕ) : ℚ :=
  ((entries.filter (fun e => dayLabel e.fedAtLocal == k)).map
    (fun e => jsOrZero e.calories_consumed)).sum

lemma find?_replace (m : List ((ℕ × ℕ) × ℚ)) (k : ℕ × ℕ) (v : ℚ)
    (h : m.any (fun p => p.1 == k) = true) :
    (m.map (fun p => if p.1 == k then (k, v) else p)).find? (fun p => p.1 == k)
      = some (k, v) := by
  induction m with
  | nil => simp at h
  | cons a m ih =>
    simp only [List.map_cons]
    by_cases ha : a.1 = k
    · have h1 : (if (a.1 == k) = true then (k, v) else a) = (k, v) := by
        simp [ha]
      rw [h1, List.find?_cons_of_pos]
      simp
    · have ha' : (a.1 == k) = false := beq_eq_false_iff_ne.mpr ha
      have h1 : (if (a.1 == k) = true then (k, v) else a) = a := by
        simp [ha']
      rw [h1, List.find?_cons_of_neg]
      · apply ih
        simpa [List.any_cons, ha'] using h
      · simp [ha']

lemma find?_replace_other (m : List ((ℕ × ℕ) × ℚ)) (k k' : ℕ × ℕ) (v : ℚ)
    (hne : k' ≠ k) :
    (m.map (fun p => if p.1 == k then (k, v) else p)).find? (fun p => p.1 == k')
      = m.find? (fun p => p.1 == k') := by
  have hkk : (k == k') = false := beq_eq_false_iff_ne.mpr (Ne.symm hne)
  induction m with
  | nil => rfl
  | cons a m ih =>
    simp only [List.map_cons]
    by_cases ha : a.1 = k
    · have h1 : (if (a.1 == k) = true then (k, v) else a) = (k, v) := by
        simp [ha]
      have ha2 : (a.1 == k') = false := by
        rw [ha]; exact hkk
      rw [h1, List.find?_cons_of_neg, List.find?_cons_of_neg, ih]
      · simp [ha2]
      · simp [hkk]
    · have ha' : (a.1 == k) = false := beq_eq_false_iff_ne.mpr ha
      have h1 : (if (a.1 == k) = true then (k, v) else a) = a := by
        simp [ha']
      rw [h1]
      by_cases hb : a.1 = k'
      · rw [List.find?_cons_of_pos, List.find?_cons_of_pos] <;> simp [hb]
      · have hb' : (a.1 == k') = false := beq_eq_false_iff_ne.mpr hb
        rw [List.find?_cons_of_neg, List.find?_cons_of_neg, ih] <;> simp [hb']

lemma mapVal_mapSet_self (m : List ((ℕ × ℕ) × ℚ)) (k : ℕ × ℕ) (v : ℚ) :
    mapVal (mapSet m k v) k = some v := by
  unfold mapSet
  by_cases h : m.any (fun p => p.1 == k) = true
  · simp only [h, if_true, mapVal, find?_replace m k v h, Option.map_some']
  · simp only [Bool.not_eq_true] at h
    have hnone : m.find? (fun p => p.1 == k) = none := by
      rw [List.find?_eq_none]
      intro p hp
      have := List.any_eq_false.mp h p hp
      simpa using this
    simp [h, mapVal, List.find?_append, hnone]

lemma mapVal_mapSet_other (m : List ((ℕ × ℕ) × ℚ)) (k k' : ℕ × ℕ) (v : ℚ)
    (hne : k' ≠ k) :
    mapVal (mapSet m k v) k' = mapVal m k' := by
  have hkk : (k == k') = false := beq_eq_false_iff_ne.mpr (Ne.symm hne)
  unfold mapSet
  by_cases h : m.any (fun p => p.1 == k) = true
  · simp only [h, if_true, mapVal, find?_replace_other m k k' v hne]
  · simp only [Bool.not_eq_true] at h
    simp only [h, Bool.false_eq_true, if_false, mapVal, List.find?_append]
    cases hm : m.find? (fun p => p.1 == k') with
    | some p => simp
    | none => simp [List.find?_cons, hkk]

lemma mapKeys_nodup_mapSet (m : List ((ℕ × ℕ) × ℚ)) (k : ℕ × ℕ) (v : ℚ)
    (h : (m.map Prod.fst).Nodup) :
    ((mapSet m k v).map Prod.fst).Nodup := by
  unfold mapSet
  by_cases hany : m.any (fun p => p.1 == k) = true
  · simp only [hany, if_true, List.map_map]
    have : (Prod.fst ∘ fun p : (ℕ × ℕ) × ℚ => if p.1 == k then (k, v) else p)
        = Prod.fst := by
      funext p
      by_cases hp : p.1 = k
      · simp [Function.comp, hp]
      · simp [Function.comp, beq_eq_false_iff_ne.mpr hp]
    rw [this]
    exact h
  · simp only [Bool.not_eq_true] at hany
    have hk : k ∉ m.map Prod.fst := by
      intro hmem
      obtain ⟨p, hp, hpk⟩ := List.mem_map.mp hmem
      have := List.any_eq_false.mp hany p hp
      exact this (by simp [hpk])
    simp only [hany, Bool.false_eq_true, if_false, List.map_append, List.map_cons,
      List.map_nil]
    exact List.Nodup.append h (List.nodup_singleton k) (by
      rw [List.disjoint_singleton]
      exact hk)

lemma sumCaloriesOn_nil (k : ℕ × ℕ) : sumCaloriesOn [] k = 0 := rfl

lemma sumCaloriesOn_not_mem (l : List AnalyticsFeeding) (k : ℕ × ℕ)
    (h : l.any (fun e => dayLabel e.fedAtLocal == k) = false) :
    sumCaloriesOn l k = 0 := by
  unfold sumCaloriesOn
  have : l.filter (fun e => dayLabel e.fedAtLocal == k) = [] := by
    rw [List.filter_eq_nil_iff]
    intro e he
    simpa using List.any_eq_false.mp h e he
  rw [this]
  rfl

lemma caloriesFoldAux (l : List AnalyticsFeeding) :
    ∀ m : List ((ℕ × ℕ) × ℚ), (m.map Prod.fst).Nodup →
      ((List.foldl
          (fun m e =>
            mapSet m (dayLabel e.fedAtLocal)
              (mapGetOrZero m (dayLabel e.fedAtLocal) + jsOrZero e.calories_consumed))
          m l).map Prod.fst).Nodup ∧
      ∀ k, mapVal (List.foldl
          (fun m e =>
            mapSet m (dayLabel e.fedAtLocal)
              (mapGetOrZero m (dayLabel e.fedAtLocal) + jsOrZero e.calories_consumed))
          m l) k =
        if l.any (fun e => dayLabel e.fedAtLocal == k)
        then some (jsOrZero (mapVal m k) + sumCaloriesOn l k)
        else mapVal m k := by
  induction l with
  | nil =>
    intro m hm
    exact ⟨hm, fun k => by simp⟩
  | cons e l ih =>
    intro m hm
    rw [List.foldl_cons]
    have hm' := mapKeys_nodup_mapSet m (dayLabel e.fedAtLocal)
      (mapGetOrZero m (dayLabel e.fedAtLocal) + jsOrZero e.calories_consumed) hm
    obtain ⟨h1, h2⟩ := ih _ hm'
    refine ⟨h1, fun k => ?_⟩
    rw [h2 k]
    by_cases hk : dayLabel e.fedAtLocal = k
    · subst hk
      have hbk : (dayLabel e.fedAtLocal == dayLabel e.fedAtLocal) = true := by simp
      set v := mapGetOrZero m (dayLabel e.fedAtLocal) + jsOrZero e.calories_consumed with hv
      have hself := mapVal_mapSet_self m (dayLabel e.fedAtLocal) v
      have hsum : sumCaloriesOn (e :: l) (dayLabel e.fedAtLocal)
          = jsOrZero e.calories_consumed + sumCaloriesOn l (dayLabel e.fedAtLocal) := by
        unfold sumCaloriesOn
        simp [List.filter_cons, hbk]
      cases hany : l.any (fun x => dayLabel x.fedAtLocal == dayLabel e.fedAtLocal) with
      | true =>
        simp only [List.any_cons, hbk, Bool.true_or, if_true, hany, hself, hsum,
          jsOrZero, Option.getD_some]
        refine congrArg some ?_
        rw [hv]
        simp only [mapGetOrZero, jsOrZero]
        ring
      | false =>
        simp only [List.any_cons, hbk, Bool.true_or, if_true, hany,
          Bool.false_eq_true, if_false, hself, hsum,
          jsOrZero, Option.getD_some]
        rw [sumCaloriesOn_not_mem l _ hany]
        refine congrArg some ?_
        rw [hv]
        simp only [mapGetOrZero, jsOrZero]
        ring
    · have hbk : (dayLabel e.fedAtLocal == k) = false := beq_eq_false_iff_ne.mpr hk
      have hother := mapVal_mapSet_other m (dayLabel e.fedAtLocal) k
        (mapGetOrZero m (dayLabel e.fedAtLocal) + jsOrZero e.calories_consumed)
        (Ne.symm hk)
      have hsum : sumCaloriesOn (e :: l) k = sumCaloriesOn l k := by
        unfold sumCaloriesOn
        simp [List.filter_cons, hbk]
      simp [List.any_cons, hbk, hother, hsum]

/-- Three feedings on the local calendar day 2025-05-12, with 100, 200 and
50 calories consumed. -/
def threeSameDayFeedings : List AnalyticsFeeding :=
  [ { fedAtLocal := { year := 2025, month := 5, day := 12 }, calories_consumed := some 100 }
  , { fedAtLocal := { year := 2025, month := 5, day := 12 }, calories_consumed := some 200 }
  , { fedAtLocal := { year := 2025, month := 5, day := 12 }, calories_consumed := some 50 } ]

/-- C4: the analytics calorie aggregation keys buckets by the
(month, day) of the local calendar date of `fed_at`; the bucket keys are
pairwise distinct (exactly one bucket per label), the bucket of a label
holds the sum of the (or-zero) calories of all entries with that label,
and in particular three feedings on the same calendar day produce a
single bucket holding their calorie sum. -/
theorem analytics_caloriesByDay_spec :
    (∀ e : AnalyticsFeeding, dayLabel e.fedAtLocal
        = (e.fedAtLocal.month, e.fedAtLocal.day)) ∧
    (∀ l : List AnalyticsFeeding, ((caloriesByDay l).map Prod.fst).Nodup) ∧
    (∀ (l : List AnalyticsFeeding) (k : ℕ × ℕ),
      mapVal (caloriesByDay l) k =
        if l.any (fun e => dayLabel e.fedAtLocal == k)
        then some (sumCaloriesOn l k) else none) ∧
    (caloriesByDay threeSameDayFeedings).length = 1 ∧
    mapVal (caloriesByDay threeSameDayFeedings) (5, 12) = some 350 := by
  have hmain : ∀ (l : List AnalyticsFeeding) (k : ℕ × ℕ),
      mapVal (caloriesByDay l) k =
        if l.any (fun e => dayLabel e.fedAtLocal == k)
        then some (sumCaloriesOn l k) else none := by
    intro l k
    have h := (caloriesFoldAux l [] (by simp)).2 k
    unfold caloriesByDay
    rw [h]
    simp [mapVal, jsOrZero]
  refine ⟨fun e => rfl, ?_, hmain, ?_, ?_⟩
  · intro l
    exact (caloriesFoldAux l [] (by simp)).1
  · decide
  · rw [hmain]
    norm_num [threeSameDayFeedings, sumCaloriesOn, dayLabel, jsOrZero,
      List.filter_cons]

/-! ## Database requests issued by the view controllers

Each controller function that talks to the backend is modelled by a pure
function returning the list of requests it issues, with the shape of each
query (table, explicit filters) and each write payload taken from the
source.  `isoOf` abstracts `new Date(s).toISOString()` and `nowIso`
abstracts `new Date().toISOString()`.  A `parseFloat` that would yield
`NaN` is collapsed to `none` in the optional numeric payload fields. -/

inductive Tbl
  | pets
  | foods
  | feeding_entries
  | weight_entries
deriving DecidableEq

inductive DbFilter
  | eqUserId (uid : String)
  | eqPetId (id : String)
  | eqFoodId (id : String)
  | eqId (id : String)
  | gteFedAt (ts : String)
  | lteFedAt (ts : String)
  | gteWeighedAt (ts : String)
deriving DecidableEq

/-- The `petData` payload of `Pets.tsx` `handleSubmit`. -/
structure PetData where
  name : String
  species : Species
  breed : Option String
  birth_date : Option String
  target_weight : Option ℚ
  user_id : String
deriving DecidableEq

/-- The `foodData` payload of the foods page `handleSubmit`. -/
structure FoodData where
  name : String
  brand : Option String
  calories_per_gram : Option ℚ
  protein_per_gram : Option ℚ
  fat_per_gram : Option ℚ
  carbs_per_gram : Option ℚ
  user_id : String
deriving DecidableEq

/-- The `weightData` payload of `Pets.tsx` `handleWeightSubmit` and
`Dashboard.tsx` `handleWeightSubmit`. -/
structure WeightData where
  pet_id : String
  weight : Option ℚ
  notes : Option String
  user_id : String
  weighed_at : String
deriving DecidableEq

inductive DbWrite
  | insertPet (d : PetData)
  | updatePet (id : String) (d : PetData)
  | insertFood (d : FoodData)
  | updateFood (id : String) (d : FoodData)
  | insertFeeding (d : FeedingData)
  | updateFeeding (id : String) (d : FeedingData)
  | insertWeight (d : WeightData)
deriving DecidableEq

inductive DbRequest
  | select (table : Tbl) (filters : List DbFilter)
  | write (w : DbWrite)
  | delete (table : Tbl) (filters : List DbFilter)
deriving DecidableEq

/-- The `petData` payload of `Pets.tsx` `handleSubmit`: empty optional fields become null,
`target_weight` is `parseFloat`ed when nonempty. -/
def petsSubmitData (uid name : String) (species : Species)
    (breed birthDate targetWeight : String) : PetData :=
  { name := name
    species := species
    breed := if breed = "" then none else some breed
    birth_date := if birthDate = "" then none else some birthDate
    target_weight := if targetWeight = "" then none else jsParseFloat targetWeight
    user_id := uid }

/-- Foods page `handleSubmit` payload: each nonempty macro field is parsed
with the first comma replaced by a dot. -/
def foodsSubmitData (uid name brand calories protein fat carbs : String) : FoodData :=
  { name := name
    brand := if brand = "" then none else some brand
    calories_per_gram :=
      if calories = "" then none else jsParseFloat (jsReplaceFirst calories ',' '.')
    protein_per_gram :=
      if protein = "" then none else jsParseFloat (jsReplaceFirst protein ',' '.')
    fat_per_gram :=
      if fat = "" then none else jsParseFloat (jsReplaceFirst fat ',' '.')
    carbs_per_gram :=
      if carbs = "" then none else jsParseFloat (jsReplaceFirst carbs ',' '.')
    user_id := uid }

/-- The `weightData` payload of `handleWeightSubmit` (`Pets.tsx` and `Dashboard.tsx`):
the weight is parsed with the first comma replaced by a dot, and
`weighed_at` is the form value converted to ISO, or now. -/
def weightSubmitData (uid petId weightForm notesForm weighedAtForm nowIso : String)
    (isoOf : String → String) : WeightData :=
  { pet_id := petId
    weight := jsParseFloat (jsReplaceFirst weightForm ',' '.')
    notes := if notesForm = "" then none else some notesForm
    user_id := uid
    weighed_at := if weighedAtForm = "" then nowIso else isoOf weighedAtForm }

/-- The `feedingData` payload of `Dashboard.tsx` `handleFeedingSubmit`: the refill-tracking
variant, with `actual_consumed = putOut + refilled - notEaten` and the
zero amounts stored as null (`notEaten || null`). -/
def dashboardFeedingData (uid petId foodId : String) (putOut notEaten refilled : ℚ)
    (foods : List Food) (notesForm nowIso : String) : FeedingData :=
  let actualConsumed := calculateActualConsumedDashboard putOut notEaten refilled
  let selectedFood := foods.find? (fun f => f.id == foodId)
  let caloriesConsumed := selectedFood.bind (fun f => calculateCalories actualConsumed f)
  { pet_id := petId
    food_id := foodId
    amount_put_out := putOut
    amount_not_eaten := if notEaten = 0 then none else some notEaten
    amount_refilled := if refilled = 0 then none else some refilled
    actual_consumed := actualConsumed
    calories_consumed := caloriesConsumed
    fed_at := nowIso
    notes := if notesForm = "" then none else some notesForm
    user_id := uid }

/-- Requests of `Feeding.tsx` `loadData`: the three reads. -/
def feedingLoadDataReqs (uid : String) : List DbRequest :=
  [ .select .pets [.eqUserId uid]
  , .select .foods [.eqUserId uid]
  , .select .feeding_entries [.eqUserId uid] ]

/-- Requests of `Feeding.tsx` `loadLastFeeding`: returns early when either id is empty. -/
def feedingLoadLastFeedingReqs (uid petId foodId : String) : List DbRequest :=
  if petId = "" ∨ foodId = "" then []
  else [.select .feeding_entries [.eqUserId uid, .eqPetId petId, .eqFoodId foodId]]

/-- Requests of `Feeding.tsx` `handleSubmit`: update when editing, insert otherwise. -/
def feedingHandleSubmitReqs (uid petId foodId : String) (currentBowlWeight : ℚ)
    (lastFeeding : Option FeedingEntry) (foods : List Food)
    (fedAtForm notesForm nowIso : String) (editingId : Option String) : List DbRequest :=
  let d := feedingSubmitRecord uid petId foodId currentBowlWeight lastFeeding foods
    fedAtForm notesForm nowIso
  match editingId with
  | some fid => [.write (.updateFeeding fid d)]
  | none => [.write (.insertFeeding d)]

/-- Requests of `Feeding.tsx` `handleDelete`: nothing is issued unless the user
confirms the dialog. -/
def feedingHandleDeleteReqs (confirmed : Bool) (feedingId : String) : List DbRequest :=
  if !confirmed then [] else [.delete .feeding_entries [.eqId feedingId]]

/-- Foods page `loadFoods`. -/
def foodsLoadReqs (uid : String) : List DbRequest :=
  [.select .foods [.eqUserId uid]]

/-- Foods page `handleSubmit`. -/
def foodsHandleSubmitReqs (uid name brand calories protein fat carbs : String)
    (editingId : Option String) : List DbRequest :=
  let d := foodsSubmitData uid name brand calories protein fat carbs
  match editingId with
  | some fid => [.write (.updateFood fid d)]
  | none => [.write (.insertFood d)]

/-- Foods page `handleDelete`. -/
def foodsHandleDeleteReqs (confirmed : Bool) (foodId : String) : List DbRequest :=
  if !confirmed then [] else [.delete .foods [.eqId foodId]]

/-- Requests of `Pets.tsx` `loadPets`. -/
def petsLoadReqs (uid : String) : List DbRequest :=
  [.select .pets [.eqUserId uid]]

/-- Requests of `Pets.tsx` `loadWeightEntries`: skipped while no pet is loaded. -/
def petsLoadWeightEntriesReqs (uid : String) (petsCount : ℕ) : List DbRequest :=
  if petsCount = 0 then [] else [.select .weight_entries [.eqUserId uid]]

/-- Requests of `Pets.tsx` `handleSubmit`. -/
def petsHandleSubmitReqs (uid name : String) (species : Species)
    (breed birthDate targetWeight : String) (editingId : Option String) : List DbRequest :=
  let d := petsSubmitData uid name species breed birthDate targetWeight
  match editingId with
  | some pid => [.write (.updatePet pid d)]
  | none => [.write (.insertPet d)]

/-- Requests of `Pets.tsx` `handleWeightSubmit`: returns early with no pet selected. -/
def petsHandleWeightSubmitReqs (uid : String) (selectedPetForWeight : Option String)
    (weightForm notesForm weighedAtForm nowIso : String)
    (isoOf : String → String) : List DbRequest :=
  match selectedPetForWeight with
  | none => []
  | some pid =>
    [.write (.insertWeight (weightSubmitData uid pid weightForm notesForm weighedAtForm
      nowIso isoOf))]

/-- Requests of `Pets.tsx` `handleDelete`. -/
def petsHandleDeleteReqs (confirmed : Bool) (petId : String) : List DbRequest :=
  if !confirmed then [] else [.delete .pets [.eqId petId]]

/-- Requests of `Dashboard.tsx` `loadInitialData`. -/
def dashboardLoadInitialReqs (uid : String) : List DbRequest :=
  [ .select .pets [.eqUserId uid]
  , .select .foods [.eqUserId uid] ]

/-- Requests of `Dashboard.tsx` `loadDashboardData`: returns early with no pet selected. -/
def dashboardLoadDataReqs (uid selectedPetId startOfTodayIso endOfTodayIso
    thirtyDaysAgoIso : String) : List DbRequest :=
  if selectedPetId = "" then []
  else
    [ .select .feeding_entries
        [.eqUserId uid, .eqPetId selectedPetId, .gteFedAt startOfTodayIso,
         .lteFedAt endOfTodayIso]
    , .select .feeding_entries [.eqUserId uid, .eqPetId selectedPetId]
    , .select .weight_entries
        [.eqUserId uid, .eqPetId selectedPetId, .gteWeighedAt thirtyDaysAgoIso] ]

/-- Requests of `Dashboard.tsx` `handleWeightSubmit`. -/
def dashboardHandleWeightSubmitReqs (uid selectedPetId weightForm notesForm
    weighedAtForm nowIso : String) (isoOf : String → String) : List DbRequest :=
  if selectedPetId = "" then []
  else
    [.write (.insertWeight (weightSubmitData uid selectedPetId weightForm notesForm
      weighedAtForm nowIso isoOf))]

/-- Requests of `Dashboard.tsx` `handleFeedingSubmit`. -/
def dashboardHandleFeedingSubmitReqs (uid selectedPetId foodId : String)
    (putOut notEaten refilled : ℚ) (foods : List Food)
    (notesForm nowIso : String) : List DbRequest :=
  if selectedPetId = "" then []
  else
    [.write (.insertFeeding (dashboardFeedingData uid selectedPetId foodId putOut
      notEaten refilled foods notesForm nowIso))]

/-- Requests of `Analytics.tsx` `loadPets`. -/
def analyticsLoadPetsReqs (uid : String) : List DbRequest :=
  [.select .pets [.eqUserId uid]]

/-- Requests of `Analytics.tsx` `loadAnalyticsData`: the window filter always applies,
the pet filter is appended unless "all" is selected. -/
def analyticsLoadDataReqs (uid selectedPet startDateIso : String) : List DbRequest :=
  let weightFilters := [DbFilter.eqUserId uid, .gteWeighedAt startDateIso]
  let feedingFilters := [DbFilter.eqUserId uid, .gteFedAt startDateIso]
  if selectedPet = "all" then
    [ .select .weight_entries weightFilters
    , .select .feeding_entries feedingFilters ]
  else
    [ .select .weight_entries (weightFilters ++ [.eqPetId selectedPet])
    , .select .feeding_entries (feedingFilters ++ [.eqPetId selectedPet]) ]

/-- The owning-user identifier stamped into a write payload. -/
def DbWrite.payloadUserId : DbWrite → String
  | .insertPet d => d.user_id
  | .updatePet _ d => d.user_id
  | .insertFood d => d.user_id
  | .updateFood _ d => d.user_id
  | .insertFeeding d => d.user_id
  | .updateFeeding _ d => d.user_id
  | .insertWeight d => d.user_id

/-- The owner-scoping contract on a single request: a write payload
carries `user_id = uid`; a select carries an explicit
`eq('user_id', uid)` filter. -/
def ownerScoped (uid : String) : DbRequest → Bool
  | .select _ fs => fs.any (fun f => f == DbFilter.eqUserId uid)
  | .write w => w.payloadUserId == uid
  | .delete _ _ => true

/-- C6: every request issued by the view controllers is owner-scoped —
every create/update payload stamps `user_id` with the authenticated
user's id, and every read filters on it explicitly, across the pets,
foods, feeding-entries and weight-entries tables. -/
theorem owner_scoping_spec (uid petId foodId selectedPetId selectedPet name brand
    calories protein fat carbs breed birthDate targetWeight weightForm notesForm
    weighedAtForm fedAtForm nowIso startIso endIso thirtyIso feedingId : String)
    (species : Species) (c putOut notEaten refilled : ℚ)
    (last : Option FeedingEntry) (foods : List Food)
    (editingId selectedPetOpt : Option String) (confirmed : Bool)
    (petsCount : ℕ) (isoOf : String → String) :
    ((feedingLoadDataReqs uid).all (ownerScoped uid) = true) ∧
    ((feedingLoadLastFeedingReqs uid petId foodId).all (ownerScoped uid) = true) ∧
    ((feedingHandleSubmitReqs uid petId foodId c last foods fedAtForm notesForm nowIso
        editingId).all (ownerScoped uid) = true) ∧
    ((feedingHandleDeleteReqs confirmed feedingId).all (ownerScoped uid) = true) ∧
    ((foodsLoadReqs uid).all (ownerScoped uid) = true) ∧
    ((foodsHandleSubmitReqs uid name brand calories protein fat carbs editingId).all
        (ownerScoped uid) = true) ∧
    ((foodsHandleDeleteReqs confirmed foodId).all (ownerScoped uid) = true) ∧
    ((petsLoadReqs uid).all (ownerScoped uid) = true) ∧
    ((petsLoadWeightEntriesReqs uid petsCount).all (ownerScoped uid) = true) ∧
    ((petsHandleSubmitReqs uid name species breed birthDate targetWeight editingId).all
        (ownerScoped uid) = true) ∧
    ((petsHandleWeightSubmitReqs uid selectedPetOpt weightForm notesForm weighedAtForm
        nowIso isoOf).all (ownerScoped uid) = true) ∧
    ((petsHandleDeleteReqs confirmed petId).all (ownerScoped uid) = true) ∧
    ((dashboardLoadInitialReqs uid).all (ownerScoped uid) = true) ∧
    ((dashboardLoadDataReqs uid selectedPetId startIso endIso thirtyIso).all
        (ownerScoped uid) = true) ∧
    ((dashboardHandleWeightSubmitReqs uid selectedPetId weightForm notesForm
        weighedAtForm nowIso isoOf).all (ownerScoped uid) = true) ∧
    ((dashboardHandleFeedingSubmitReqs uid selectedPetId foodId putOut notEaten refilled
        foods notesForm nowIso).all (ownerScoped uid) = true) ∧
    ((analyticsLoadPetsReqs uid).all (ownerScoped uid) = true) ∧
    ((analyticsLoadDataReqs uid selectedPet startIso).all (ownerScoped uid) = true) := by
  refine ⟨?_, ?_, ?_, ?_, ?_, ?_, ?_, ?_, ?_, ?_, ?_, ?_, ?_, ?_, ?_, ?_, ?_, ?_⟩
  · simp [feedingLoadDataReqs, ownerScoped]
  · unfold feedingLoadLastFeedingReqs
    split <;> simp [ownerScoped]
  · cases editingId <;>
      simp [feedingHandleSubmitReqs, ownerScoped, DbWrite.payloadUserId,
        feedingSubmitRecord]
  · unfold feedingHandleDeleteReqs
    split <;> simp [ownerScoped]
  · simp [foodsLoadReqs, ownerScoped]
  · cases editingId <;>
      simp [foodsHandleSubmitReqs, ownerScoped, DbWrite.payloadUserId, foodsSubmitData]
  · unfold foodsHandleDeleteReqs
    split <;> simp [ownerScoped]
  · simp [petsLoadReqs, ownerScoped]
  · unfold petsLoadWeightEntriesReqs
    split <;> simp [ownerScoped]
  · cases editingId <;>
      simp [petsHandleSubmitReqs, ownerScoped, DbWrite.payloadUserId, petsSubmitData]
  · cases selectedPetOpt <;>
      simp [petsHandleWeightSubmitReqs, ownerScoped, DbWrite.payloadUserId,
        weightSubmitData]
  · unfold petsHandleDeleteReqs
    split <;> simp [ownerScoped]
  · simp [dashboardLoadInitialReqs, ownerScoped]
  · unfold dashboardLoadDataReqs
    split <;> simp [ownerScoped]
  · unfold dashboardHandleWeightSubmitReqs
    split <;> simp [ownerScoped, DbWrite.payloadUserId, weightSubmitData]
  · unfold dashboardHandleFeedingSubmitReqs
    split <;> simp [ownerScoped, DbWrite.payloadUserId, dashboardFeedingData]
  · simp [analyticsLoadPetsReqs, ownerScoped]
  · unfold analyticsLoadDataReqs
    split <;> simp [ownerScoped]

/-- Is a request a delete? -/
def isDeleteReq : DbRequest → Bool
  | .delete _ _ => true
  | _ => false

/-- C7: each delete handler issues a delete request exactly when the
confirmation dialog was accepted; a declined confirmation issues no
request at all, leaving the stored data untouched. -/
theorem delete_confirmation_spec (confirmed : Bool) (petId foodId feedingId : String) :
    ((feedingHandleDeleteReqs confirmed feedingId).any isDeleteReq = confirmed) ∧
    ((petsHandleDeleteReqs confirmed petId).any isDeleteReq = confirmed) ∧
    ((foodsHandleDeleteReqs confirmed foodId).any isDeleteReq = confirmed) ∧
    feedingHandleDeleteReqs false feedingId = [] ∧
    petsHandleDeleteReqs false petId = [] ∧
    foodsHandleDeleteReqs false foodId = [] := by
  cases confirmed <;>
    simp [feedingHandleDeleteReqs, petsHandleDeleteReqs, foodsHandleDeleteReqs,
      isDeleteReq]

/-! ## Dashboard statistics -/

/-- The `recentWeightTrend` values of `DashboardStats` in `src/types`. -/
inductive WeightTrend
  | up
  | down
  | stable
  | noData
deriving DecidableEq

/-- Record `DashboardStats` from `src/types`. -/
structure DashboardStats where
  totalPets : ℕ
  todayFeedings : ℕ
  todayCalories : ℤ
  recentWeightTrend : WeightTrend
deriving DecidableEq

/-- JS `Math.round`: round half away from zero toward `+∞`. -/
def jsRound (q : ℚ) : ℤ := ⌊q + 1 / 2⌋

/-- The `setStats` record of the dashboard `loadDashboardData` success
path: `totalPets: 1`, `todayFeedings: feedingsCount || 0`,
`todayCalories: Math.round(todayFeedings.reduce(sum + (calories_consumed || 0)) || 0)`,
`recentWeightTrend: 'stable'` — the trend is a hard-coded constant,
nothing is computed from the fetched weight entries. -/
def loadDashboardStats (todayFeedings : Option (List FeedingEntry))
    (feedingsCount : Option ℕ) (weightEntries : List WeightEntry) : DashboardStats :=
  let todayCalories :=
    jsOrZero (todayFeedings.map
      (fun l => l.foldl (fun sum f => sum + jsOrZero f.calories_consumed) 0))
  { totalPets := 1
    todayFeedings := feedingsCount.getD 0
    todayCalories := jsRound todayCalories
    recentWeightTrend := .stable }

/-- C8: the dashboard's weight-trend indicator is a stub: the stats
produced by loading dashboard data always carry
`recentWeightTrend = 'stable'`, and the whole stats record is independent
of the loaded weight entries. -/
theorem dashboard_weight_trend_stub (todayFeedings : Option (List FeedingEntry))
    (feedingsCount : Option ℕ) (ws ws2 : List WeightEntry) :
    (loadDashboardStats todayFeedings feedingsCount ws).recentWeightTrend
        = .stable ∧
    loadDashboardStats todayFeedings feedingsCount ws
        = loadDashboardStats todayFeedings feedingsCount ws2 :=
  ⟨rfl, rfl⟩

/-! ## Translation lookup (`LanguageContext.t`) -/

/-- A JavaScript value as far as the translation lookup needs: a string,
a plain object, or `undefined`. -/
inductive JsVal
  | jsUndefined
  | str (s : String)
  | obj (fields : List (String × JsVal))

/-- JS `value?.[k]`: property lookup on an object, `undefined` on a
missing property and on any non-object receiver. -/
def jsIndex : JsVal → String → JsVal
  | .obj fs, k =>
    match fs.find? (fun p => p.1 == k) with
    | some p => p.2
    | none => .jsUndefined
  | _, _ => .jsUndefined

/-- JS `key.split('.')` over the characters of the key. -/
def splitDotsAux : List Char → List Char → List String
  | [], acc => [String.mk acc.reverse]
  | c :: cs, acc =>
    if c = '.' then String.mk acc.reverse :: splitDotsAux cs []
    else splitDotsAux cs (c :: acc)

/-- JS `key.split('.')`. -/
def splitDots (s : String) : List String := splitDotsAux s.data []

/-- The `en` table of `translations` in `LanguageContext`, verbatim: a flat object whose keys contain dots. -/
def enTranslations : List (String × String) :=
  [ ("nav.dashboard", "Dashboard")
  , ("nav.pets", "Pets")
  , ("nav.foods", "Foods")
  , ("nav.feeding", "Feeding")
  , ("nav.analytics", "Analytics")
  , ("nav.logout", "Logout")
  , ("common.save", "Save")
  , ("common.cancel", "Cancel")
  , ("common.edit", "Edit")
  , ("common.delete", "Delete")
  , ("common.add", "Add")
  , ("common.update", "Update")
  , ("common.loading", "Loading...")
  , ("common.grams", "g")
  , ("common.kg", "kg")
  , ("common.cal", "cal")
  , ("common.kcal", "kcal")
  , ("common.notes", "Notes")
  , ("dashboard.title", "Dashboard")
  , ("dashboard.subtitle", "Overview of your pets and recent activity")
  , ("dashboard.recentFeedings", "Recent Feedings")
  , ("dashboard.recentWeights", "Recent Weights")
  , ("dashboard.quickActions", "Quick Actions")
  , ("dashboard.addWeight", "Add Weight")
  , ("dashboard.addFeeding", "Add Feeding")
  , ("dashboard.noRecentActivity", "No recent activity")
  , ("dashboard.noRecentActivityDescription", "Start by adding your pets and foods, then record feedings and weights.")
  , ("dashboard.addWeightFor", "Add Weight for {petName}")
  , ("dashboard.weight", "Weight")
  , ("dashboard.weighedAt", "Weighed At")
  , ("auth.signIn", "Sign In")
  , ("auth.signUp", "Sign Up")
  , ("auth.email", "Email")
  , ("auth.password", "Password")
  , ("auth.confirmPassword", "Confirm Password")
  , ("auth.alreadyHaveAccount", "Already have an account?")
  , ("auth.dontHaveAccount", "Don\x27t have an account?")
  , ("auth.signingIn", "Signing in...")
  , ("auth.signingUp", "Signing up...")
  , ("pets.title", "Pets")
  , ("pets.subtitle", "Manage your pets and their information")
  , ("pets.addPet", "Add Pet")
  , ("pets.editPet", "Edit Pet")
  , ("pets.addNewPet", "Add New Pet")
  , ("pets.name", "Name")
  , ("pets.species", "Species")
  , ("pets.breed", "Breed")
  , ("pets.birthDate", "Birth Date")
  , ("pets.targetWeight", "Target Weight")
  , ("pets.selectSpecies", "Select species")
  , ("pets.optional", "Optional")
  , ("pets.noPets", "No pets yet")
  , ("pets.noPetsDescription", "Add your first pet to get started with tracking their feeding and weight.")
  , ("pets.deleteConfirm", "Are you sure you want to delete this pet? This will also delete all associated feeding and weight records.")
  , ("pets.currentWeight", "Current Weight")
  , ("pets.lastWeighed", "Last Weighed")
  , ("pets.addWeight", "Add Weight")
  , ("foods.title", "Foods")
  , ("foods.subtitle", "Manage your pet foods and their nutritional information")
  , ("foods.addFood", "Add Food")
  , ("foods.editFood", "Edit Food")
  , ("foods.addNewFood", "Add New Food")
  , ("foods.name", "Name")
  , ("foods.brand", "Brand")
  , ("foods.caloriesPerGram", "Calories per Gram")
  , ("foods.proteinPerGram", "Protein per Gram")
  , ("foods.fatPerGram", "Fat per Gram")
  , ("foods.carbsPerGram", "Carbs per Gram")
  , ("foods.noFoods", "No foods yet")
  , ("foods.noFoodsDescription", "Add your pet foods to track nutritional information and feeding amounts.")
  , ("foods.deleteConfirm", "Are you sure you want to delete this food? This will also delete all associated feeding records.")
  , ("foods.nutritionalInfo", "Nutritional Information (per gram)")
  , ("feeding.title", "Feeding")
  , ("feeding.subtitle", "Track your pets\x27 feeding schedule and consumption")
  , ("feeding.addFeeding", "Add Feeding")
  , ("feeding.editFeeding", "Edit Feeding")
  , ("feeding.addNewFeeding", "Add New Feeding")
  , ("feeding.pet", "Pet")
  , ("feeding.food", "Food")
  , ("feeding.currentBowlWeight", "Current Bowl Weight")
  , ("feeding.fedAt", "Fed At")
  , ("feeding.selectPet", "Select a pet")
  , ("feeding.selectFood", "Select a food")
  , ("feeding.setupRequired", "Setup Required")
  , ("feeding.setupDescription", "You need to add at least one pet and one food before you can record feedings.")
  , ("feeding.noFeedings", "No feeding records yet")
  , ("feeding.noFeedingsDescription", "Start tracking your pets\x27 meals by adding feeding records.")
  , ("feeding.deleteConfirm", "Are you sure you want to delete this feeding record?")
  , ("feeding.bowlWeight", "Bowl Weight")
  , ("feeding.consumed", "Consumed")
  , ("feeding.calories", "Calories")
  , ("feeding.lastFeedingInfo", "Last Feeding Information")
  , ("feeding.lastBowlWeight", "Previous Bowl Weight")
  , ("feeding.calculatedConsumption", "Calculated Consumption")
  , ("analytics.title", "Analytics")
  , ("analytics.subtitle", "Analyze your pets\x27 feeding patterns and weight trends")
  , ("analytics.selectPet", "Select a pet to view analytics")
  , ("analytics.weightTrend", "Weight Trend")
  , ("analytics.feedingHistory", "Feeding History")
  , ("analytics.nutritionBreakdown", "Nutrition Breakdown")
  , ("analytics.averageDailyCalories", "Average Daily Calories")
  , ("analytics.totalFeedings", "Total Feedings")
  , ("analytics.averageConsumption", "Average Consumption per Feeding")
  , ("analytics.noData", "No data available")
  , ("analytics.noDataDescription", "Start recording feedings and weights to see analytics.")
  , ("analytics.last30Days", "Last 30 Days")
  , ("analytics.weight", "Weight")
  , ("analytics.consumption", "Consumption")
  , ("analytics.calories", "Calories")
  , ("analytics.protein", "Protein")
  , ("analytics.fat", "Fat")
  , ("analytics.carbs", "Carbs")
  ]

/-- The `de` table of `translations` in `LanguageContext`, verbatim. -/
def deTranslations : List (String × String) :=
  [ ("nav.dashboard", "Dashboard")
  , ("nav.pets", "Haustiere")
  , ("nav.foods", "Futter")
  , ("nav.feeding", "Fütterung")
  , ("nav.analytics", "Analysen")
  , ("nav.logout", "Abmelden")
  , ("common.save", "Speichern")
  , ("common.cancel", "Abbrechen")
  , ("common.edit", "Bearbeiten")
  , ("common.delete", "Löschen")
  , ("common.add", "Hinzufügen")
  , ("common.update", "Aktualisieren")
  , ("common.loading", "Lädt...")
  , ("common.grams", "g")
  , ("common.kg", "kg")
  , ("common.cal", "cal")
  , ("common.kcal", "kcal")
  , ("common.notes", "Notizen")
  , ("dashboard.title", "Dashboard")
  , ("dashboard.subtitle", "Übersicht über Ihre Haustiere und aktuelle Aktivitäten")
  , ("dashboard.recentFeedings", "Letzte Fütterungen")
  , ("dashboard.recentWeights", "Letzte Gewichtsmessungen")
  , ("dashboard.quickActions", "Schnellaktionen")
  , ("dashboard.addWeight", "Gewicht hinzufügen")
  , ("dashboard.addFeeding", "Fütterung hinzufügen")
  , ("dashboard.noRecentActivity", "Keine aktuellen Aktivitäten")
  , ("dashboard.noRecentActivityDescription", "Beginnen Sie, indem Sie Ihre Haustiere und Futter hinzufügen, dann Fütterungen und Gewichte erfassen.")
  , ("dashboard.addWeightFor", "Gewicht hinzufügen für {petName}")
  , ("dashboard.weight", "Gewicht")
  , ("dashboard.weighedAt", "Gewogen am")
  , ("auth.signIn", "Anmelden")
  , ("auth.signUp", "Registrieren")
  , ("auth.email", "E-Mail")
  , ("auth.password", "Passwort")
  , ("auth.confirmPassword", "Passwort bestätigen")
  , ("auth.alreadyHaveAccount", "Haben Sie bereits ein Konto?")
  , ("auth.dontHaveAccount", "Haben Sie noch kein Konto?")
  , ("auth.signingIn", "Anmeldung läuft...")
  , ("auth.signingUp", "Registrierung läuft...")
  , ("pets.title", "Haustiere")
  , ("pets.subtitle", "Verwalten Sie Ihre Haustiere und deren Informationen")
  , ("pets.addPet", "Haustier hinzufügen")
  , ("pets.editPet", "Haustier bearbeiten")
  , ("pets.addNewPet", "Neues Haustier hinzufügen")
  , ("pets.name", "Name")
  , ("pets.species", "Art")
  , ("pets.breed", "Rasse")
  , ("pets.birthDate", "Geburtsdatum")
  , ("pets.targetWeight", "Zielgewicht")
  , ("pets.selectSpecies", "Art auswählen")
  , ("pets.optional", "Optional")
  , ("pets.noPets", "Noch keine Haustiere")
  , ("pets.noPetsDescription", "Fügen Sie Ihr erstes Haustier hinzu, um mit der Verfolgung von Fütterung und Gewicht zu beginnen.")
  , ("pets.deleteConfirm", "Sind Sie sicher, dass Sie dieses Haustier löschen möchten? Dies löscht auch alle zugehörigen Fütterungs- und Gewichtsdaten.")
  , ("pets.currentWeight", "Aktuelles Gewicht")
  , ("pets.lastWeighed", "Zuletzt gewogen")
  , ("pets.addWeight", "Gewicht hinzufügen")
  , ("foods.title", "Futter")
  , ("foods.subtitle", "Verwalten Sie Ihr Haustierfutter und deren Nährwertinformationen")
  , ("foods.addFood", "Futter hinzufügen")
  , ("foods.editFood", "Futter bearbeiten")
  , ("foods.addNewFood", "Neues Futter hinzufügen")
  , ("foods.name", "Name")
  , ("foods.brand", "Marke")
  , ("foods.caloriesPerGram", "Kalorien pro Gramm")
  , ("foods.proteinPerGram", "Protein pro Gramm")
  , ("foods.fatPerGram", "Fett pro Gramm")
  , ("foods.carbsPerGram", "Kohlenhydrate pro Gramm")
  , ("foods.noFoods", "Noch kein Futter")
  , ("foods.noFoodsDescription", "Fügen Sie Ihr Haustierfutter hinzu, um Nährwertinformationen und Fütterungsmengen zu verfolgen.")
  , ("foods.deleteConfirm", "Sind Sie sicher, dass Sie dieses Futter löschen möchten? Dies löscht auch alle zugehörigen Fütterungsdaten.")
  , ("foods.nutritionalInfo", "Nährwertinformationen (pro Gramm)")
  , ("feeding.title", "Fütterung")
  , ("feeding.subtitle", "Verfolgen Sie den Fütterungsplan und Verbrauch Ihrer Haustiere")
  , ("feeding.addFeeding", "Fütterung hinzufügen")
  , ("feeding.editFeeding", "Fütterung bearbeiten")
  , ("feeding.addNewFeeding", "Neue Fütterung hinzufügen")
  , ("feeding.pet", "Haustier")
  , ("feeding.food", "Futter")
  , ("feeding.currentBowlWeight", "Aktuelles Napfgewicht")
  , ("feeding.fedAt", "Gefüttert am")
  , ("feeding.selectPet", "Haustier auswählen")
  , ("feeding.selectFood", "Futter auswählen")
  , ("feeding.setupRequired", "Einrichtung erforderlich")
  , ("feeding.setupDescription", "Sie müssen mindestens ein Haustier und ein Futter hinzufügen, bevor Sie Fütterungen erfassen können.")
  , ("feeding.noFeedings", "Noch keine Fütterungsdaten")
  , ("feeding.noFeedingsDescription", "Beginnen Sie mit der Verfolgung der Mahlzeiten Ihrer Haustiere, indem Sie Fütterungsdaten hinzufügen.")
  , ("feeding.deleteConfirm", "Sind Sie sicher, dass Sie diesen Fütterungseintrag löschen möchten?")
  , ("feeding.bowlWeight", "Napfgewicht")
  , ("feeding.consumed", "Verbraucht")
  , ("feeding.calories", "Kalorien")
  , ("feeding.lastFeedingInfo", "Letzte Fütterungsinformation")
  , ("feeding.lastBowlWeight", "Vorheriges Napfgewicht")
  , ("feeding.calculatedConsumption", "Berechneter Verbrauch")
  , ("analytics.title", "Analysen")
  , ("analytics.subtitle", "Analysieren Sie die Fütterungsmuster und Gewichtstrends Ihrer Haustiere")
  , ("analytics.selectPet", "Wählen Sie ein Haustier aus, um Analysen anzuzeigen")
  , ("analytics.weightTrend", "Gewichtstrend")
  , ("analytics.feedingHistory", "Fütterungshistorie")
  , ("analytics.nutritionBreakdown", "Nährstoffaufschlüsselung")
  , ("analytics.averageDailyCalories", "Durchschnittliche tägliche Kalorien")
  , ("analytics.totalFeedings", "Gesamte Fütterungen")
  , ("analytics.averageConsumption", "Durchschnittlicher Verbrauch pro Fütterung")
  , ("analytics.noData", "Keine Daten verfügbar")
  , ("analytics.noDataDescription", "Beginnen Sie mit der Aufzeichnung von Fütterungen und Gewichten, um Analysen zu sehen.")
  , ("analytics.last30Days", "Letzte 30 Tage")
  , ("analytics.weight", "Gewicht")
  , ("analytics.consumption", "Verbrauch")
  , ("analytics.calories", "Kalorien")
  , ("analytics.protein", "Protein")
  , ("analytics.fat", "Fett")
  , ("analytics.carbs", "Kohlenhydrate")
  ]

/-- The table for the active language. -/
def translationsTable (language : Language) : List (String × String) :=
  match language with
  | .en => enTranslations
  | .de => deTranslations

/-- Object `translations[language]`: a flat object whose property names are the
dotted keys and whose values are the translation strings. -/
def translations (language : Language) : JsVal :=
  .obj ((translationsTable language).map (fun p => (p.1, .str p.2)))

/-- Function `t(key)` of `LanguageContext`: split the key on `.`, drill into the
table object one segment at a time with `value?.[k]`, and return
`value || key` — the found string when truthy (non-empty), the key
otherwise.  (A final object value, impossible with these flat string
tables, is also mapped to the key.) -/
def tFn (language : Language) (key : String) : String :=
  let value := (splitDots key).foldl jsIndex (translations language)
  match value with
  | .str s => if s = "" then key else s
  | _ => key

/-- C10: the translation lookup misses its own table.  The `en` table
holds the non-empty entry "Dashboard" for the key "nav.dashboard", yet
`t` returns the key itself, because it splits the key on `.` and indexes
the flat table with the bare segment "nav", which is not a property.
The same happens for every key of both shipped tables. -/
theorem translation_lookup_bug :
    tFn .en "nav.dashboard" = "nav.dashboard" ∧
    (enTranslations.find? (fun p => p.1 == "nav.dashboard")).map Prod.snd
        = some "Dashboard" ∧
    enTranslations.all (fun p => tFn .en p.1 == p.1) = true ∧
    deTranslations.all (fun p => tFn .de p.1 == p.1) = true := by
  refine ⟨?_, ?_, ?_, ?_⟩ <;> decide

end PurrfectHealth
